import Mathlib

/-
Verification development for the contract/invoice reconciliation core
(backend/shared/comparison.py): a shallow embedding of the Matcher
(ComparisonGraph.retrieve_contract), the Comparator
(ComparisonGraph.compare_terms) and the orchestrator (ComparisonGraph.run),
together with theorems settling the specification's claims about them.

Modelling conventions:
- Python dicts become association lists; `d.get(k)` becomes an Option-valued
  lookup, and a stored `value: null` is modelled the same way as an absent
  `value` key (the pipeline reads them identically except through defaults
  that no claim touches).
- Raised Python exceptions become `Except PyError`; a stage that cannot raise
  returns `.ok`.
- The natural-language comparator (an external collaborator, per spec section 6)
  is an injected function from the two term strings to either a raw response
  text or an invocation failure; `llm = none` models the unconfigured case.
- Logging calls are side effects with no influence on data flow and are not
  modelled.
-/

set_option autoImplicit false

namespace ThrillAI

/-- Scalar values that can occupy the `value` slot of an extracted field's
evidence object: strings, integers or booleans (the Python side is untyped;
these are the shapes the pipeline can meet). -/
inductive Scalar where
  | str (s : String)
  | int (n : Int)
  | bool (b : Bool)
deriving Repr, DecidableEq

/-- Python truthiness of a scalar, as used by `if not v` tests. -/
def Scalar.truthy : Scalar → Bool
  | .str s => s ≠ ""
  | .int n => n ≠ 0
  | .bool b => b

/-- Python `str()` of a scalar, as used by f-string interpolation. -/
def Scalar.pyStr : Scalar → String
  | .str s => s
  | .int n => toString n
  | .bool b => if b then "True" else "False"

/-- Python truthiness of an optional scalar (`None` is falsy). -/
def truthyOpt : Option Scalar → Bool
  | none => false
  | some v => v.truthy

/-- Python truthiness of the optional integer `contract_id` slot
(`None` and `0` are falsy). -/
def truthyOptInt : Option Int → Bool
  | none => false
  | some n => n ≠ 0

/-- An extracted field's evidence object: the `value` slot plus the remaining
provenance metadata, kept abstract as a key/value list and carried verbatim
into findings. -/
structure EvidenceNode where
  value : Option Scalar
  meta : List (String × String) := []
deriving Repr, DecidableEq

/-- A field mapping: the Python dict from field name to evidence object inside
an extraction result's `data` slot. -/
abbrev FieldMap := List (String × EvidenceNode)

/-- Models `m.get(k)` on a field mapping: the first binding for `k`, if any. -/
def getNode (m : FieldMap) (k : String) : Option EvidenceNode :=
  (m.find? (fun p => p.1 == k)).map (·.2)

/-- Models `m.get(k, \x7b\x7d).get("value")`: the value slot of field `k`,
`none` when the field or its value is absent. -/
def getValue (m : FieldMap) (k : String) : Option Scalar :=
  (getNode m k).bind (·.value)

/-- The empty evidence object, the `\x7b\x7d` default of `dict.get`. -/
def emptyNode : EvidenceNode := { value := none, meta := [] }

/-- An extraction result as stored on a document: the `doc_type` tag and the
`data` field mapping, either of which may be absent. -/
structure ExtractionResult where
  doc_type : Option String
  data : Option FieldMap
deriving Repr, DecidableEq

/-- A row of the document store (shared.models.Document restricted to the
columns this core reads): a numeric id and an optional extraction result. -/
structure Document where
  id : Int
  extraction_result : Option ExtractionResult
deriving Repr, DecidableEq

/-- The `data` mapping of a document's extraction result, when both exist. -/
def docData (d : Document) : Option FieldMap :=
  match d.extraction_result with
  | some er => er.data
  | none => none

/-- Python exceptions that the embedded code can raise or propagate. -/
inductive PyError where
  | attributeError
  | valueError (msg : String)
  | runtimeError (msg : String)
deriving Repr, DecidableEq

/-- Python `s.lower()` (ASCII case folding, the range these documents use). -/
def lowerStr (s : String) : String :=
  String.mk (s.toList.map Char.toLower)

/-- Python whitespace as recognized by `str.strip()`. -/
def isSpaceChar (c : Char) : Bool :=
  c = ' ' ∨ c = '\t' ∨ c = '\n' ∨ c = '\r' ∨ c = '\x0b' ∨ c = '\x0c'

/-- Python `s.strip()`: drop whitespace from both ends. -/
def pyStrip (s : String) : String :=
  String.mk (((s.toList.dropWhile isSpaceChar).reverse.dropWhile isSpaceChar).reverse)

/-- Replace every non-overlapping occurrence of `pat` (left to right) by
`rep`, fuelled by the input length. -/
def replaceAux (pat rep : List Char) : Nat → List Char → List Char
  | 0, cs => cs
  | fuel + 1, cs =>
    if pat ≠ [] ∧ pat.isPrefixOf cs then
      rep ++ replaceAux pat rep fuel (cs.drop pat.length)
    else
      match cs with
      | [] => []
      | c :: rest => c :: replaceAux pat rep fuel rest

/-- Python `s.replace(pat, rep)` for non-empty `pat`. -/
def pyReplace (s pat rep : String) : String :=
  String.mk (replaceAux pat.toList rep.toList s.toList.length s.toList)

/-- Models Python `needle in hay` on strings. -/
def strIn (needle hay : String) : Bool :=
  (List.range (hay.toList.length + 1)).any
    (fun i => needle.toList.isPrefixOf (hay.toList.drop i))

/-- Models `data.get(k, \x7b\x7d).get("value", "")`: the party slot read in
`retrieve_contract`, defaulting to the empty string when absent. -/
def partyVal (data : FieldMap) (k : String) : Scalar :=
  (getValue data k).getD (.str "")

/-- Lower-case then substring test against one party slot, modelling
`vendor_name.lower() in party.lower()` for a single party; Python raises
`AttributeError` when the stored slot is not a string. -/
def partyMatch (vnLower : String) (p : Scalar) : Except PyError Bool :=
  match p with
  | .str s => .ok (strIn vnLower (lowerStr s))
  | _ => .error .attributeError

/-- The scanning loop of `retrieve_contract` (comparison.py lines 57-67):
walk the store in iteration order, skip documents without an extraction
result or whose `doc_type` is not "contract", and stop at the first candidate
whose `party_a` or `party_b` contains the lower-cased vendor name (the
`or` short-circuits, so `party_b` is only inspected when `party_a` misses).
`vendor_name.lower()` raises when the vendor value is a truthy non-string,
but only once a candidate is actually inspected. -/
def scanContracts (vendor : Scalar) : List Document → Except PyError (Option Document)
  | [] => .ok none
  | doc :: rest =>
    match doc.extraction_result with
    | none => scanContracts vendor rest
    | some er =>
      if er.doc_type = some "contract" then
        match vendor with
        | .str vn =>
          let data := er.data.getD []
          match partyMatch (lowerStr vn) (partyVal data "party_a") with
          | .error e => .error e
          | .ok true => .ok (some doc)
          | .ok false =>
            match partyMatch (lowerStr vn) (partyVal data "party_b") with
            | .error e => .error e
            | .ok true => .ok (some doc)
            | .ok false => scanContracts vendor rest
        | _ => .error .attributeError
      else
        scanContracts vendor rest

/-- The result a Matcher node merges into the pipeline state: the matched
contract's id and its extracted `data` mapping, or neither. -/
structure MatchResult where
  contract_id : Option Int
  contract_data : Option FieldMap
deriving Repr, DecidableEq

/-- ComparisonGraph.retrieve_contract (comparison.py lines 39-76): read the
vendor name from the invoice field mapping; a falsy vendor yields "no match"
(with a warning logged); otherwise scan the store and, on a match, return the
document's id and the `data` slot of its extraction result (`.get("data")`,
which is absent-tolerant and can yield `none`). -/
def retrieve_contract (store : List Document) (invoice_data : FieldMap) :
    Except PyError MatchResult :=
  let vendor_name := getValue invoice_data "vendor_name"
  if truthyOpt vendor_name = false then
    .ok { contract_id := none, contract_data := none }
  else
    match vendor_name with
    | none => .ok { contract_id := none, contract_data := none }
    | some v =>
      match scanContracts v store with
      | .error e => .error e
      | .ok none => .ok { contract_id := none, contract_data := none }
      | .ok (some doc) =>
        match doc.extraction_result with
        | some er => .ok { contract_id := some doc.id, contract_data := er.data }
        | none => .error .attributeError

/-- Modelled from the spec: `shared/schemas.py` is not part of the sources at
hand; the spec's closed enumeration of finding kinds for this core is
MISSING_CONTRACT and TERM_MISMATCH (spec section 4.2), and it records that the
source realizes the missing-contract kind through an enum member named
`MISSING_PO`, "abusing enum slightly to mean Missing Contract" per the
source comment on comparison.py line 84. -/
inductive FindingType where
  | MISSING_CONTRACT
  | TERM_MISMATCH
deriving Repr, DecidableEq

/-- Modelled from the spec: the severity enumeration of `shared/schemas.py`,
ordered LOW < MEDIUM < HIGH (spec section 3). -/
inductive FindingSeverity where
  | LOW
  | MEDIUM
  | HIGH
deriving Repr, DecidableEq

/-- The evidence mapping attached to term-mismatch findings: the invoice's
`payment_terms` evidence object (absent when the invoice lacks the field) and
the contract's `payment_terms` evidence object (the empty object when the
contract lacks the field), exactly as built on comparison.py lines 139-142
and 159-162. -/
structure Evidence where
  invoice_evidence : Option EvidenceNode
  contract_evidence : EvidenceNode
deriving Repr, DecidableEq

/-- Modelled from the spec: the `Finding` record of `shared/schemas.py` —
kind, severity, human-readable description, optional recommendation and
optional evidence (spec section 3). -/
structure Finding where
  finding_type : FindingType
  severity : FindingSeverity
  description : String
  recommendation : Option String := none
  evidence : Option Evidence := none
deriving Repr, DecidableEq

/-- The per-run pipeline state (ComparisonState TypedDict, comparison.py
lines 19-24). -/
structure ComparisonState where
  invoice_id : Int
  invoice_data : FieldMap
  contract_id : Option Int
  contract_data : Option FieldMap
  findings : List Finding
deriving Repr, DecidableEq

/-- Parsed JSON values, the shape `json.loads` hands back to the comparator
(numbers restricted to integers: the protocol's `consistent`/`explanation`
object never carries fractions, and a fractional number simply falls outside
the model's parseable subset). -/
inductive JsonVal where
  | null
  | bool (b : Bool)
  | num (n : Int)
  | str (s : String)
  | arr (xs : List JsonVal)
  | obj (kvs : List (String × JsonVal))

/-- Skip JSON whitespace. -/
def skipWs : List Char → List Char
  | c :: cs => if c = ' ' ∨ c = '\t' ∨ c = '\n' ∨ c = '\r' then skipWs cs else c :: cs
  | [] => []

/-- Parse the body of a JSON string literal after its opening quote,
accumulating decoded characters; unsupported escapes fail the parse. -/
def parseStringLit : List Char → List Char → Option (String × List Char)
  | acc, '"' :: rest => some (String.mk acc.reverse, rest)
  | acc, '\\' :: c :: rest =>
    if c = '"' then parseStringLit ('"' :: acc) rest
    else if c = '\\' then parseStringLit ('\\' :: acc) rest
    else if c = '/' then parseStringLit ('/' :: acc) rest
    else if c = 'n' then parseStringLit ('\n' :: acc) rest
    else if c = 't' then parseStringLit ('\t' :: acc) rest
    else if c = 'r' then parseStringLit ('\r' :: acc) rest
    else none
  | acc, c :: rest => if c = '"' ∨ c = '\\' then none else parseStringLit (c :: acc) rest
  | _, [] => none

/-- Take a maximal run of decimal digits. -/
def takeDigits : List Char → List Char × List Char
  | [] => ([], [])
  | c :: cs =>
    if c.isDigit then
      let p := takeDigits cs
      (c :: p.1, p.2)
    else ([], c :: cs)

/-- Decimal value of a digit run. -/
def digitsToNat (ds : List Char) : Nat :=
  ds.foldl (fun n c => n * 10 + (c.toNat - 48)) 0

/-- Parse a JSON integer (optional leading minus, then digits). -/
def parseNum (cs : List Char) : Option (Int × List Char) :=
  match cs with
  | '-' :: rest =>
    let p := takeDigits rest
    if p.1.isEmpty then none else some (-(digitsToNat p.1 : Int), p.2)
  | _ =>
    let p := takeDigits cs
    if p.1.isEmpty then none else some ((digitsToNat p.1 : Int), p.2)

mutual

/-- Fuel-indexed recursive-descent parser for one JSON value. -/
def parseVal : Nat → List Char → Option (JsonVal × List Char)
  | 0, _ => none
  | fuel + 1, cs =>
    match skipWs cs with
    | 'n' :: 'u' :: 'l' :: 'l' :: rest => some (.null, rest)
    | 't' :: 'r' :: 'u' :: 'e' :: rest => some (.bool true, rest)
    | 'f' :: 'a' :: 'l' :: 's' :: 'e' :: rest => some (.bool false, rest)
    | '"' :: rest => (parseStringLit [] rest).map (fun p => (.str p.1, p.2))
    | '[' :: rest =>
      match skipWs rest with
      | ']' :: rest2 => some (.arr [], rest2)
      | rest2 => parseArrItems fuel rest2 []
    | '\x7b' :: rest =>
      match skipWs rest with
      | '\x7d' :: rest2 => some (.obj [], rest2)
      | rest2 => parseObjItems fuel rest2 []
    | cs2 => (parseNum cs2).map (fun p => (.num p.1, p.2))

/-- Parse the remaining comma-separated items of a non-empty JSON array. -/
def parseArrItems : Nat → List Char → List JsonVal → Option (JsonVal × List Char)
  | 0, _, _ => none
  | fuel + 1, cs, acc =>
    match parseVal fuel cs with
    | none => none
    | some (v, rest) =>
      match skipWs rest with
      | ',' :: rest2 => parseArrItems fuel rest2 (v :: acc)
      | ']' :: rest2 => some (.arr (v :: acc).reverse, rest2)
      | _ => none

/-- Parse the remaining comma-separated members of a non-empty JSON object. -/
def parseObjItems : Nat → List Char → List (String × JsonVal) →
    Option (JsonVal × List Char)
  | 0, _, _ => none
  | fuel + 1, cs, acc =>
    match skipWs cs with
    | '"' :: rest =>
      match parseStringLit [] rest with
      | none => none
      | some (k, rest2) =>
        match skipWs rest2 with
        | ':' :: rest3 =>
          match parseVal fuel rest3 with
          | none => none
          | some (v, rest4) =>
            match skipWs rest4 with
            | ',' :: rest5 => parseObjItems fuel rest5 ((k, v) :: acc)
            | '\x7d' :: rest5 => some (.obj ((k, v) :: acc).reverse, rest5)
            | _ => none
        | _ => none
    | _ => none

end

/-- Models `json.loads` on the subset of JSON this pipeline exchanges (null,
booleans, integers, strings, arrays, objects); `none` models a raised
`JSONDecodeError`. Fractional numbers and `\u` escapes lie outside the
modelled subset and register as parse failures. -/
def json_loads (s : String) : Option JsonVal :=
  match parseVal (2 * s.length + 2) s.toList with
  | some (v, rest) => if skipWs rest = [] then some v else none
  | none => none

/-- Python truthiness of a parsed JSON value (`if not parsed["consistent"]`). -/
def jTruthy : JsonVal → Bool
  | .null => false
  | .bool b => b
  | .num n => n ≠ 0
  | .str s => s ≠ ""
  | .arr xs => !xs.isEmpty
  | .obj kvs => !kvs.isEmpty

/-- Models `parsed[k]`: dict lookup (later duplicate keys win, as in the dicts
`json.loads` builds); `none` models the raised `KeyError` on a dict without
the key, or `TypeError` on a non-dict, both caught by the surrounding
`except`. -/
def jGet (v : JsonVal) (k : String) : Option JsonVal :=
  match v with
  | .obj kvs => (kvs.reverse.find? (fun p => p.1 == k)).map (·.2)
  | _ => none

mutual

/-- Python `str()` of a parsed JSON value, as interpolated for
`parsed['explanation']` in the finding description f-string (containers are
rendered in Python's repr style). -/
def jStr : JsonVal → String
  | .null => "None"
  | .bool b => if b then "True" else "False"
  | .num n => toString n
  | .str s => s
  | .arr xs => "[" ++ jReprList xs ++ "]"
  | .obj kvs => "\x7b" ++ jReprObj kvs ++ "\x7d"

/-- Python `repr()` of a parsed JSON value (strings quoted), used for
container elements. -/
def jRepr : JsonVal → String
  | .null => "None"
  | .bool b => if b then "True" else "False"
  | .num n => toString n
  | .str s => "'" ++ s ++ "'"
  | .arr xs => "[" ++ jReprList xs ++ "]"
  | .obj kvs => "\x7b" ++ jReprObj kvs ++ "\x7d"

/-- Comma-joined reprs of array elements. -/
def jReprList : List JsonVal → String
  | [] => ""
  | [x] => jRepr x
  | x :: y :: xs => jRepr x ++ ", " ++ jReprList (y :: xs)

/-- Comma-joined reprs of object members. -/
def jReprObj : List (String × JsonVal) → String
  | [] => ""
  | [p] => "'" ++ p.1 ++ "': " ++ jRepr p.2
  | p :: q :: kvs => "'" ++ p.1 ++ "': " ++ jRepr p.2 ++ ", " ++ jReprObj (q :: kvs)

end

/-- The injected natural-language comparator (spec section 6,
`compareTerms(sideA, sideB) -> rawText`): given the two term strings as
interpolated into the prompt, either the raw response content or an
invocation failure. The code configures it from environment keys
(comparison.py lines 29-37); `none` models the unconfigured case. -/
abbrev LLM := String → String → Except PyError String

/-- Models the fence stripping on comparison.py line 132:
`res.content.replace("```json", "").replace("```", "")`. -/
def stripFences (raw : String) : String :=
  pyReplace (pyReplace raw "```json" "") "```" ""

/-- The natural-language comparison branch (comparison.py lines 118-145):
invoke the comparator — outside the `try`, so an invocation failure
propagates — then, inside the `try`, strip code fences, `json.loads` the
content, read `parsed["consistent"]` and, when falsy, emit the TERM_MISMATCH
finding; every failure inside the `try` is caught and contributes nothing. -/
def llmCompare (f : LLM) (iv cv : Scalar) (inv_node : Option EvidenceNode)
    (cont_terms_node : EvidenceNode) : Except PyError (List Finding) :=
  match f iv.pyStr cv.pyStr with
  | .error e => .error e
  | .ok raw =>
    match json_loads (stripFences raw) with
    | none => .ok []
    | some parsed =>
      match jGet parsed "consistent" with
      | none => .ok []
      | some c =>
        if jTruthy c then .ok []
        else
          match jGet parsed "explanation" with
          | none => .ok []
          | some ex =>
            .ok [{ finding_type := .TERM_MISMATCH
                   severity := .HIGH
                   description := "Invoice terms '" ++ iv.pyStr ++
                     "' conflict with Contract '" ++ cv.pyStr ++ "'. " ++ jStr ex
                   evidence := some { invoice_evidence := inv_node
                                      contract_evidence := cont_terms_node } }]

/-- The matched-contract half of the Comparator (comparison.py lines 91-165),
after `state["contract_data"]` has been dereferenced to `cd`: read both
payment-terms values, then branch exactly as the source's
`if inv and cont and llm / elif not llm and inv and cont` pair does. -/
def compareMatched (llm : Option LLM) (invoice_data cd : FieldMap) :
    Except PyError (List Finding) :=
  let cont_terms_node := (getNode cd "payment_terms").getD emptyNode
  let count_terms_val := cont_terms_node.value
  let inv_terms_val := getValue invoice_data "payment_terms"
  match llm with
  | some f =>
    match inv_terms_val, count_terms_val with
    | some iv, some cv =>
      if iv.truthy && cv.truthy then
        llmCompare f iv cv (getNode invoice_data "payment_terms") cont_terms_node
      else .ok []
    | _, _ => .ok []
  | none =>
    match inv_terms_val, count_terms_val with
    | some iv, some cv =>
      if iv.truthy && cv.truthy then
        if pyStrip (lowerStr iv.pyStr) ≠ pyStrip (lowerStr cv.pyStr) then
          .ok [{ finding_type := .TERM_MISMATCH
                 severity := .HIGH
                 description := "Invoice terms '" ++ iv.pyStr ++
                   "' do not match Contract '" ++ cv.pyStr ++ "'. (Mock Comparison)"
                 evidence := some { invoice_evidence := getNode invoice_data "payment_terms"
                                    contract_evidence := cont_terms_node } }]
        else .ok []
      else .ok []
    | _, _ => .ok []

/-- ComparisonGraph.compare_terms (comparison.py lines 78-165): a falsy
`contract_id` yields the single missing-contract finding (the source spells
its kind `FindingType.MISSING_PO`, meaning missing contract); otherwise
`state["contract_data"].get("payment_terms", \x7b\x7d)` on line 95 is the
first touch of `contract_data`, so a `None` there raises `AttributeError`
before any comparison. -/
def compare_terms (llm : Option LLM) (state : ComparisonState) :
    Except PyError (List Finding) :=
  if truthyOptInt state.contract_id = false then
    .ok [{ finding_type := .MISSING_CONTRACT
           severity := .HIGH
           description := "No matching contract found for this vendor."
           recommendation := some "Upload a contract for this vendor." }]
  else
    match state.contract_data with
    | none => .error .attributeError
    | some cd => compareMatched llm state.invoice_data cd

/-- Models `db.query(Document).filter(Document.id == invoice_id).first()`. -/
def findDocById (store : List Document) (i : Int) : Option Document :=
  store.find? (fun d => d.id == i)

/-- ComparisonGraph.run (comparison.py lines 178-194): load the invoice
document, raise `ValueError("Invoice not found or not extracted")` — the
spec's NotFoundError — if it or its extraction result is absent, then drive
the two-node graph: retrieve merges its contract binding into the state and
compare's `findings` list replaces the (empty) initial one, so run returns
exactly what the Comparator emitted; errors in either node propagate. -/
def run (store : List Document) (llm : Option LLM) (invoice_id : Int) :
    Except PyError (List Finding) :=
  match findDocById store invoice_id with
  | none => .error (.valueError "Invoice not found or not extracted")
  | some doc =>
    match doc.extraction_result with
    | none => .error (.valueError "Invoice not found or not extracted")
    | some er =>
      let invoice_data := er.data.getD []
      match retrieve_contract store invoice_data with
      | .error e => .error e
      | .ok mr =>
        compare_terms llm
          { invoice_id := invoice_id
            invoice_data := invoice_data
            contract_id := mr.contract_id
            contract_data := mr.contract_data
            findings := [] }

/-- Invoice field mapping of the spec's section 8 scenario: vendor
"Acme Corp", payment terms "Net 30". -/
def acmeInvoiceData : FieldMap :=
  [("vendor_name", { value := some (.str "Acme Corp") }),
   ("payment_terms", { value := some (.str "Net 30"), meta := [("page", "1")] })]

/-- The stored invoice document for the scenario. -/
def acmeInvoiceDoc : Document :=
  { id := 1
    extraction_result := some { doc_type := some "invoice", data := some acmeInvoiceData } }

/-- Contract field mapping of the scenario: counterparties "Acme Corp Inc"
and "Client LLC", payment terms "Net 45". -/
def acmeContractData : FieldMap :=
  [("party_a", { value := some (.str "Acme Corp Inc") }),
   ("party_b", { value := some (.str "Client LLC") }),
   ("payment_terms", { value := some (.str "Net 45"), meta := [("page", "3")] })]

/-- The stored contract document for the scenario. -/
def acmeContractDoc : Document :=
  { id := 2
    extraction_result := some { doc_type := some "contract", data := some acmeContractData } }

/-- The scenario store: the invoice itself plus one matching contract. -/
def acmeStore : List Document := [acmeInvoiceDoc, acmeContractDoc]

/-- The single finding of comparison.py lines 83-88. -/
def missingContractFinding : Finding :=
  { finding_type := .MISSING_CONTRACT
    severity := .HIGH
    description := "No matching contract found for this vendor."
    recommendation := some "Upload a contract for this vendor." }

/-- C1: when the Matcher produced no contract (`contract_id` absent), the
Comparator emits exactly one finding — the missing-contract kind, severity
HIGH, the fixed description and recommendation — and performs no
payment-terms comparison (the result is the same for every comparator
configuration); consequently `run` on an invoice whose extraction matches no
contract in the store returns exactly that one finding and nothing else. -/
theorem missingContract_single_finding :
    (∀ (llm : Option LLM) (st : ComparisonState), st.contract_id = none →
      compare_terms llm st = .ok [missingContractFinding]) ∧
    (∀ (store : List Document) (llm : Option LLM) (invoice_id : Int)
        (doc : Document) (er : ExtractionResult),
      findDocById store invoice_id = some doc →
      doc.extraction_result = some er →
      retrieve_contract store (er.data.getD []) =
        .ok { contract_id := none, contract_data := none } →
      run store llm invoice_id = .ok [missingContractFinding]) := by
  constructor
  · intro llm st h
    simp [compare_terms, h, truthyOptInt, missingContractFinding]
  · intro store llm invoice_id doc er hfind hext hret
    simp [run, hfind, hext, hret, compare_terms, truthyOptInt, missingContractFinding]

/-- Witness for C1 at concrete inputs: a hand-built state with no contract
id, and the scenario invoice in a store holding no contract at all. -/
theorem missingContract_single_finding_witness :
    compare_terms none
        { invoice_id := 1, invoice_data := acmeInvoiceData, contract_id := none,
          contract_data := none, findings := [] } = .ok [missingContractFinding] ∧
    run [acmeInvoiceDoc] none 1 = .ok [missingContractFinding] := by
  constructor
  · exact missingContract_single_finding.1 none _ rfl
  · exact missingContract_single_finding.2 [acmeInvoiceDoc] none 1 acmeInvoiceDoc
      { doc_type := some "invoice", data := some acmeInvoiceData } rfl rfl rfl

/-- C6: `run` fails with the not-found error — `ValueError("Invoice not found
or not extracted")`, the spec's NotFoundError — when the invoice document is
absent from the store or carries no extraction result, aborting before the
Matcher or Comparator run (the error return carries no findings). -/
theorem run_not_found :
    ∀ (store : List Document) (llm : Option LLM) (invoice_id : Int),
      (findDocById store invoice_id = none ∨
        (∃ doc, findDocById store invoice_id = some doc ∧ doc.extraction_result = none)) →
      run store llm invoice_id = .error (.valueError "Invoice not found or not extracted") := by
  intro store llm invoice_id h
  rcases h with h | ⟨doc, hfind, hext⟩
  · simp [run, h]
  · simp [run, hfind, hext]

/-- Witness for C6 at concrete inputs: an id absent from the store, and a
document stored without an extraction result. -/
theorem run_not_found_witness :
    run acmeStore none 5 = .error (.valueError "Invoice not found or not extracted") ∧
    run [{ id := 7, extraction_result := none }] none 7 =
      .error (.valueError "Invoice not found or not extracted") := by
  constructor
  · exact run_not_found acmeStore none 5 (.inl rfl)
  · exact run_not_found [{ id := 7, extraction_result := none }] none 7
      (.inr ⟨{ id := 7, extraction_result := none }, rfl, rfl⟩)

/-- Documents whose stored party values, when the document is a candidate,
are strings (the only shape the source's `.lower()` calls tolerate). -/
def stringParties (d : Document) : Bool :=
  match d.extraction_result with
  | none => true
  | some er =>
    (match partyVal (er.data.getD []) "party_a" with
     | .str _ => true
     | _ => false) &&
    (match partyVal (er.data.getD []) "party_b" with
     | .str _ => true
     | _ => false)

/-- Candidate test written from the spec's words (section 4.1): the document
has an extraction result, is classified as a contract, and either
counterparty value contains the vendor name as a case-insensitive
substring. -/
def vendorMatches (vn : String) (d : Document) : Bool :=
  match d.extraction_result with
  | none => false
  | some er =>
    er.doc_type == some "contract" &&
    (match partyVal (er.data.getD []) "party_a", partyVal (er.data.getD []) "party_b" with
     | .str pa, .str pb => strIn (lowerStr vn) (lowerStr pa) || strIn (lowerStr vn) (lowerStr pb)
     | _, _ => false)

/-- The scanning loop of the Matcher computes exactly the first document of
the store satisfying the spec's candidate test, provided candidates carry
string party values. -/
theorem scanContracts_eq_find (vn : String) :
    ∀ store : List Document, (∀ d ∈ store, stringParties d = true) →
      scanContracts (.str vn) store = .ok (store.find? (vendorMatches vn)) := by
  intro store
  induction store with
  | nil => intro _; rfl
  | cons doc rest ih =>
    intro h
    have hdoc : stringParties doc = true := h doc (List.mem_cons_self _ _)
    have hrest : ∀ d ∈ rest, stringParties d = true :=
      fun d hd => h d (List.mem_cons_of_mem _ hd)
    cases hext : doc.extraction_result with
    | none =>
      have hm : vendorMatches vn doc = false := by simp [vendorMatches, hext]
      rw [List.find?_cons_of_neg _ (by simp [hm])]
      simpa [scanContracts, hext] using ih hrest
    | some er =>
      by_cases hct : er.doc_type = some "contract"
      · rcases hpa : partyVal (er.data.getD []) "party_a" with pa | na | ba
        · rcases hpb : partyVal (er.data.getD []) "party_b" with pb | nb | bb
          · by_cases hma : strIn (lowerStr vn) (lowerStr pa) = true
            · have hm : vendorMatches vn doc = true := by
                simp [vendorMatches, hext, hct, hpa, hpb, hma]
              rw [List.find?_cons_of_pos _ (by simp [hm])]
              simp [scanContracts, hext, hct, partyMatch, hpa, hma]
            · by_cases hmb : strIn (lowerStr vn) (lowerStr pb) = true
              · have hm : vendorMatches vn doc = true := by
                  simp [vendorMatches, hext, hct, hpa, hpb, hmb]
                rw [List.find?_cons_of_pos _ (by simp [hm])]
                simp [scanContracts, hext, hct, partyMatch, hpa, hpb, hma, hmb]
              · have hm : vendorMatches vn doc = false := by
                  simp [vendorMatches, hext, hct, hpa, hpb, hma, hmb]
                rw [List.find?_cons_of_neg _ (by simp [hm])]
                simpa [scanContracts, hext, hct, partyMatch, hpa, hpb, hma, hmb]
                  using ih hrest
          · exact absurd hdoc (by simp [stringParties, hext, hpa, hpb])
          · exact absurd hdoc (by simp [stringParties, hext, hpa, hpb])
        · exact absurd hdoc (by simp [stringParties, hext, hpa])
        · exact absurd hdoc (by simp [stringParties, hext, hpa])
      · have hm : vendorMatches vn doc = false := by simp [vendorMatches, hext, hct]
        rw [List.find?_cons_of_neg _ (by simp [hm])]
        simpa [scanContracts, hext, hct] using ih hrest

/-- C3: for a non-empty string vendor name (and a store whose candidate
contracts carry string party values), the Matcher returns the id and
extracted field mapping of the first store document — in iteration order —
that has an extraction result, is tagged a contract, and whose `party_a` or
`party_b` value contains the vendor name case-insensitively; it returns no
match when no document qualifies, and returns no match without raising when
the vendor name is absent or empty (falsy). -/
theorem matcher_first_match :
    (∀ (store : List Document) (inv : FieldMap) (vn : String),
      getValue inv "vendor_name" = some (.str vn) → vn ≠ "" →
      (∀ d ∈ store, stringParties d = true) →
      retrieve_contract store inv =
        .ok (match store.find? (vendorMatches vn) with
             | some d => { contract_id := some d.id, contract_data := docData d }
             | none => { contract_id := none, contract_data := none })) ∧
    (∀ (store : List Document) (inv : FieldMap),
      truthyOpt (getValue inv "vendor_name") = false →
      retrieve_contract store inv = .ok { contract_id := none, contract_data := none }) := by
  constructor
  · intro store inv vn hget hne hsp
    have hscan := scanContracts_eq_find vn store hsp
    cases hfind : store.find? (vendorMatches vn) with
    | none =>
      simp [retrieve_contract, hget, truthyOpt, Scalar.truthy, hne, hscan, hfind]
    | some d =>
      have hd : vendorMatches vn d = true := List.find?_some hfind
      cases hext : d.extraction_result with
      | none => simp [vendorMatches, hext] at hd
      | some er =>
        simp [retrieve_contract, hget, truthyOpt, Scalar.truthy, hne, hscan, hfind,
          hext, docData]
  · intro store inv hfalsy
    simp [retrieve_contract, hfalsy]

/-- Witness for C3 at concrete inputs: the section 8 scenario store, where the
first (and only) qualifying contract is the Acme contract, and an invoice
with an empty vendor name. -/
theorem matcher_first_match_witness :
    retrieve_contract acmeStore acmeInvoiceData =
      .ok { contract_id := some 2, contract_data := some acmeContractData } ∧
    retrieve_contract acmeStore [("vendor_name", { value := some (.str "") })] =
      .ok { contract_id := none, contract_data := none } := by
  constructor
  · have h := matcher_first_match.1 acmeStore acmeInvoiceData "Acme Corp" rfl
      (by decide) (by decide)
    have h2 : (match acmeStore.find? (vendorMatches "Acme Corp") with
               | some d => { contract_id := some d.id, contract_data := docData d }
               | none => { contract_id := none, contract_data := none } : MatchResult) =
        { contract_id := some 2, contract_data := some acmeContractData } := by decide
    rw [h, h2]
  · exact matcher_first_match.2 acmeStore [("vendor_name", { value := some (.str "") })] rfl

/-- With a truthy contract id and a present contract mapping, the Comparator
proceeds to its matched-contract half. -/
theorem compare_terms_matched (llm : Option LLM) (st : ComparisonState) (cd : FieldMap)
    (hid : truthyOptInt st.contract_id = true) (hcd : st.contract_data = some cd) :
    compare_terms llm st = compareMatched llm st.invoice_data cd := by
  simp [compare_terms, hid, hcd]

/-- The fallback comparator's full behaviour when both payment-terms values
are present and truthy: one mock TERM_MISMATCH finding exactly when the
normalized renderings differ. -/
theorem compareMatched_fallback (invoice_data cd : FieldMap) (cnode : EvidenceNode)
    (iv cv : Scalar) (hc : getNode cd "payment_terms" = some cnode)
    (hcv : cnode.value = some cv) (hiv : getValue invoice_data "payment_terms" = some iv)
    (hivt : iv.truthy = true) (hcvt : cv.truthy = true) :
    compareMatched none invoice_data cd =
      .ok (if pyStrip (lowerStr iv.pyStr) = pyStrip (lowerStr cv.pyStr) then []
           else [{ finding_type := .TERM_MISMATCH
                   severity := .HIGH
                   description := "Invoice terms '" ++ iv.pyStr ++
                     "' do not match Contract '" ++ cv.pyStr ++ "'. (Mock Comparison)"
                   evidence := some { invoice_evidence := getNode invoice_data "payment_terms"
                                      contract_evidence := cnode } }]) := by
  simp only [compareMatched, hc, hiv, hcv, Option.getD_some, hivt, hcvt, Bool.and_self,
    if_true]
  by_cases h : pyStrip (lowerStr iv.pyStr) = pyStrip (lowerStr cv.pyStr) <;> simp [h]

/-- With a configured comparator and both payment-terms values present and
truthy, the Comparator defers to the natural-language branch. -/
theorem compareMatched_llm (f : LLM) (invoice_data cd : FieldMap) (cnode : EvidenceNode)
    (iv cv : Scalar) (hc : getNode cd "payment_terms" = some cnode)
    (hcv : cnode.value = some cv) (hiv : getValue invoice_data "payment_terms" = some iv)
    (hivt : iv.truthy = true) (hcvt : cv.truthy = true) :
    compareMatched (some f) invoice_data cd =
      llmCompare f iv cv (getNode invoice_data "payment_terms") cnode := by
  simp [compareMatched, hc, hiv, hcv, hivt, hcvt]

/-- C7: when a contract was matched (truthy id, contract mapping present) but
either side's payment-terms value is absent or empty (falsy), the Comparator
attempts no comparison and produces no finding — it returns an empty findings
list without raising, whatever comparator is configured. -/
theorem matched_missing_terms_skip :
    ∀ (llm : Option LLM) (st : ComparisonState) (cd : FieldMap),
      truthyOptInt st.contract_id = true →
      st.contract_data = some cd →
      (truthyOpt (getValue st.invoice_data "payment_terms") = false ∨
        truthyOpt ((getNode cd "payment_terms").getD emptyNode).value = false) →
      compare_terms llm st = .ok [] := by
  intro llm st cd hid hcd h
  rw [compare_terms_matched llm st cd hid hcd]
  rcases hiv : getValue st.invoice_data "payment_terms" with _ | iv
  · cases llm <;>
      simp [compareMatched, hiv]
  · rcases hcv : ((getNode cd "payment_terms").getD emptyNode).value with _ | cv
    · cases llm <;>
        simp [compareMatched, hiv, hcv]
    · rw [hiv, hcv] at h
      simp only [truthyOpt] at h
      rcases h with h | h <;> cases llm <;>
        simp [compareMatched, hiv, hcv, h]

/-- Witness for C7 at concrete inputs: a matched state whose invoice lacks
payment terms, and one whose contract's payment-terms value is the empty
string. -/
theorem matched_missing_terms_skip_witness :
    compare_terms none
        { invoice_id := 1, invoice_data := [], contract_id := some 2,
          contract_data := some acmeContractData, findings := [] } = .ok [] ∧
    compare_terms none
        { invoice_id := 1, invoice_data := acmeInvoiceData, contract_id := some 2,
          contract_data := some [("payment_terms", { value := some (.str "") })],
          findings := [] } = .ok [] := by
  constructor
  · exact matched_missing_terms_skip none _ acmeContractData rfl rfl (.inl (by decide))
  · exact matched_missing_terms_skip none _ [("payment_terms", { value := some (.str "") })]
      rfl rfl (.inr (by decide))

/-- C4: on the fallback path (matched contract, both payment-terms values
present and truthy, no comparator configured) the Comparator emits exactly one
TERM_MISMATCH finding — severity HIGH, description noting "(Mock Comparison)",
evidence carrying both sides' evidence objects — when the two values, as
rendered to strings, lower-cased and stripped of surrounding whitespace,
differ, and no finding when they agree. -/
theorem fallback_mismatch_iff :
    ∀ (st : ComparisonState) (cd : FieldMap) (cnode : EvidenceNode) (iv cv : Scalar),
      truthyOptInt st.contract_id = true →
      st.contract_data = some cd →
      getNode cd "payment_terms" = some cnode →
      cnode.value = some cv →
      getValue st.invoice_data "payment_terms" = some iv →
      iv.truthy = true → cv.truthy = true →
      compare_terms none st =
        .ok (if pyStrip (lowerStr iv.pyStr) = pyStrip (lowerStr cv.pyStr) then []
             else [{ finding_type := .TERM_MISMATCH
                     severity := .HIGH
                     description := "Invoice terms '" ++ iv.pyStr ++
                       "' do not match Contract '" ++ cv.pyStr ++ "'. (Mock Comparison)"
                     evidence := some { invoice_evidence := getNode st.invoice_data "payment_terms"
                                        contract_evidence := cnode } }]) := by
  intro st cd cnode iv cv hid hcd hc hcv hiv hivt hcvt
  rw [compare_terms_matched none st cd hid hcd]
  exact compareMatched_fallback st.invoice_data cd cnode iv cv hc hcv hiv hivt hcvt

/-- Matched fallback state with invoice terms "Net 30" and contract terms
"net 30" (case differs only). -/
def stNet30 : ComparisonState :=
  { invoice_id := 1
    invoice_data := [("payment_terms", { value := some (.str "Net 30") })]
    contract_id := some 2
    contract_data := some [("payment_terms", { value := some (.str "net 30") })]
    findings := [] }

/-- Matched fallback state with invoice terms "Net 15" and contract terms
"Net 30". -/
def stNet15 : ComparisonState :=
  { invoice_id := 1
    invoice_data := [("payment_terms", { value := some (.str "Net 15") })]
    contract_id := some 2
    contract_data := some [("payment_terms", { value := some (.str "Net 30") })]
    findings := [] }

/-- Witness for C4 at concrete inputs: "Net 30" versus "net 30" yields no
finding; "Net 15" versus "Net 30" yields exactly the mock TERM_MISMATCH
finding with both evidence objects. -/
theorem fallback_mismatch_iff_witness :
    compare_terms none stNet30 = .ok [] ∧
    compare_terms none stNet15 =
      .ok [{ finding_type := .TERM_MISMATCH
             severity := .HIGH
             description := "Invoice terms 'Net 15' do not match Contract 'Net 30'. (Mock Comparison)"
             evidence := some { invoice_evidence := some { value := some (.str "Net 15") }
                                contract_evidence := { value := some (.str "Net 30") } } }] := by
  constructor
  · have h := fallback_mismatch_iff stNet30 [("payment_terms", { value := some (.str "net 30") })]
      { value := some (.str "net 30") } (.str "Net 30") (.str "net 30")
      rfl rfl rfl rfl rfl (by decide) (by decide)
    rw [h, if_pos (by decide)]
  · have h := fallback_mismatch_iff stNet15 [("payment_terms", { value := some (.str "Net 30") })]
      { value := some (.str "Net 30") } (.str "Net 15") (.str "Net 30")
      rfl rfl rfl rfl rfl (by decide) (by decide)
    rw [h, if_neg (by decide)]
    rfl

/-- C10: the fallback comparator renders both payment-terms values through
`str()` before lower-casing and stripping, so for any truthy scalar values —
numbers included — it never raises, and it reports a TERM_MISMATCH exactly
when the two string renderings, lower-cased and stripped, differ. -/
theorem fallback_str_coercion_total :
    ∀ (st : ComparisonState) (cd : FieldMap) (cnode : EvidenceNode) (iv cv : Scalar),
      truthyOptInt st.contract_id = true →
      st.contract_data = some cd →
      getNode cd "payment_terms" = some cnode →
      cnode.value = some cv →
      getValue st.invoice_data "payment_terms" = some iv →
      iv.truthy = true → cv.truthy = true →
      ∃ fs : List Finding, compare_terms none st = .ok fs ∧
        (fs ≠ [] ↔ pyStrip (lowerStr iv.pyStr) ≠ pyStrip (lowerStr cv.pyStr)) ∧
        ∀ f ∈ fs, f.finding_type = .TERM_MISMATCH := by
  intro st cd cnode iv cv hid hcd hc hcv hiv hivt hcvt
  rw [compare_terms_matched none st cd hid hcd,
    compareMatched_fallback st.invoice_data cd cnode iv cv hc hcv hiv hivt hcvt]
  by_cases h : pyStrip (lowerStr iv.pyStr) = pyStrip (lowerStr cv.pyStr)
  · exact ⟨[], by rw [if_pos h], by simp [h], by simp⟩
  · refine ⟨_, by rw [if_neg h], by simp [h], by simp⟩

/-- Matched fallback state whose invoice terms are the number 30 and whose
contract terms are the string "30". -/
def stNum30 : ComparisonState :=
  { invoice_id := 1
    invoice_data := [("payment_terms", { value := some (.int 30) })]
    contract_id := some 2
    contract_data := some [("payment_terms", { value := some (.str "30") })]
    findings := [] }

/-- Matched fallback state with numeric terms 15 versus 30. -/
def stNum15 : ComparisonState :=
  { invoice_id := 1
    invoice_data := [("payment_terms", { value := some (.int 15) })]
    contract_id := some 2
    contract_data := some [("payment_terms", { value := some (.int 30) })]
    findings := [] }

/-- Witness for C10 at concrete inputs: the number 30 against the string "30"
draws no finding and no error; 15 against 30 draws a non-empty TERM_MISMATCH
findings list, again without error. -/
theorem fallback_str_coercion_total_witness :
    compare_terms none stNum30 = .ok [] ∧
    (∃ fs : List Finding, compare_terms none stNum15 = .ok fs ∧ fs ≠ []) := by
  constructor
  · obtain ⟨fs, heq, hiff, -⟩ := fallback_str_coercion_total stNum30
      [("payment_terms", { value := some (.str "30") })] { value := some (.str "30") }
      (.int 30) (.str "30") rfl rfl rfl rfl rfl (by decide) (by decide)
    have hfs : fs = [] := by
      by_contra hne
      exact (hiff.mp hne) (by decide)
    rw [heq, hfs]
  · obtain ⟨fs, heq, hiff, -⟩ := fallback_str_coercion_total stNum15
      [("payment_terms", { value := some (.int 30) })] { value := some (.int 30) }
      (.int 15) (.int 30) rfl rfl rfl rfl rfl (by decide) (by decide)
    exact ⟨fs, heq, hiff.mpr (by decide)⟩

/-- C5: on the natural-language path (matched contract, both payment-terms
values present and truthy, comparator configured), a response parsing to an
object whose `consistent` is true yields no finding, and one whose
`consistent` is false yields exactly one HIGH TERM_MISMATCH finding whose
description embeds both raw term strings and the comparator's explanation and
whose evidence carries both sides' evidence objects verbatim. -/
theorem llm_consistency_findings :
    ∀ (f : LLM) (st : ComparisonState) (cd : FieldMap) (cnode : EvidenceNode)
        (iv cv : Scalar) (raw : String) (parsed : JsonVal),
      truthyOptInt st.contract_id = true →
      st.contract_data = some cd →
      getNode cd "payment_terms" = some cnode →
      cnode.value = some cv →
      getValue st.invoice_data "payment_terms" = some iv →
      iv.truthy = true → cv.truthy = true →
      f iv.pyStr cv.pyStr = .ok raw →
      json_loads (stripFences raw) = some parsed →
      (jGet parsed "consistent" = some (.bool true) →
        compare_terms (some f) st = .ok []) ∧
      (∀ ex : JsonVal, jGet parsed "consistent" = some (.bool false) →
        jGet parsed "explanation" = some ex →
        compare_terms (some f) st =
          .ok [{ finding_type := .TERM_MISMATCH
                 severity := .HIGH
                 description := "Invoice terms '" ++ iv.pyStr ++
                   "' conflict with Contract '" ++ cv.pyStr ++ "'. " ++ jStr ex
                 evidence := some { invoice_evidence := getNode st.invoice_data "payment_terms"
                                    contract_evidence := cnode } }]) := by
  intro f st cd cnode iv cv raw parsed hid hcd hc hcv hiv hivt hcvt hraw hparse
  rw [compare_terms_matched (some f) st cd hid hcd,
    compareMatched_llm f st.invoice_data cd cnode iv cv hc hcv hiv hivt hcvt]
  constructor
  · intro hcons
    simp [llmCompare, hraw, hparse, hcons, jTruthy]
  · intro ex hcons hex
    simp [llmCompare, hraw, hparse, hcons, hex, jTruthy]

/-- Matched state used to exercise the natural-language path: invoice terms
"Net 30", contract terms "Net 45". -/
def stLLM : ComparisonState :=
  { invoice_id := 1
    invoice_data := [("payment_terms", { value := some (.str "Net 30") })]
    contract_id := some 2
    contract_data := some [("payment_terms", { value := some (.str "Net 45") })]
    findings := [] }

/-- A comparator that always answers consistent. -/
def llmConsistent : LLM :=
  fun _ _ => .ok "\x7b\"consistent\": true, \"explanation\": \"\"\x7d"

/-- A comparator that always answers inconsistent with an explanation. -/
def llmInconsistent : LLM :=
  fun _ _ => .ok "\x7b\"consistent\": false, \"explanation\": \"30 vs 15 day mismatch\"\x7d"

/-- Witness for C5 at concrete inputs: the consistent response yields no
finding; the inconsistent one yields exactly the TERM_MISMATCH finding whose
description carries the explanation text. -/
theorem llm_consistency_findings_witness :
    compare_terms (some llmConsistent) stLLM = .ok [] ∧
    compare_terms (some llmInconsistent) stLLM =
      .ok [{ finding_type := .TERM_MISMATCH
             severity := .HIGH
             description := "Invoice terms 'Net 30' conflict with Contract 'Net 45'. 30 vs 15 day mismatch"
             evidence := some { invoice_evidence := some { value := some (.str "Net 30") }
                                contract_evidence := { value := some (.str "Net 45") } } }] := by
  constructor
  · exact (llm_consistency_findings llmConsistent stLLM
      [("payment_terms", { value := some (.str "Net 45") })] { value := some (.str "Net 45") }
      (.str "Net 30") (.str "Net 45") "\x7b\"consistent\": true, \"explanation\": \"\"\x7d"
      (.obj [("consistent", .bool true), ("explanation", .str "")])
      rfl rfl rfl rfl rfl (by decide) (by decide) rfl rfl).1 rfl
  · have h := (llm_consistency_findings llmInconsistent stLLM
      [("payment_terms", { value := some (.str "Net 45") })] { value := some (.str "Net 45") }
      (.str "Net 30") (.str "Net 45")
      "\x7b\"consistent\": false, \"explanation\": \"30 vs 15 day mismatch\"\x7d"
      (.obj [("consistent", .bool false), ("explanation", .str "30 vs 15 day mismatch")])
      rfl rfl rfl rfl rfl (by decide) (by decide) rfl rfl).2
      (.str "30 vs 15 day mismatch") rfl rfl
    exact h

/-- C2 counterexample: a failure of the comparator invocation itself is not
caught — `chain.invoke` on comparison.py line 129 sits outside the `try`
that begins on line 130 — so on the section 8 scenario store a comparator
whose invocation raises makes `run` itself raise, contradicting the claim
that such failures are recovered and `run` never raises because of them. -/
theorem llm_invocation_failure_raises :
    run acmeStore (some (fun _ _ => .error (.runtimeError "connection error"))) 1 =
      .error (.runtimeError "connection error") := by
  rfl

/-- C2 (amended): a failure to parse the comparator's response — raw JSON or
JSON fenced in a code block both being accepted on success — is caught inside
the `try`, contributes zero findings, and lets `run` complete normally with
the findings accumulated so far; a failure of the comparator invocation
itself, however, is outside the `try` and propagates out of the Comparator
(and hence out of `run`). -/
theorem llm_parse_failure_fail_open :
    (∀ (f : LLM) (st : ComparisonState) (cd : FieldMap) (cnode : EvidenceNode)
        (iv cv : Scalar) (raw : String),
      truthyOptInt st.contract_id = true →
      st.contract_data = some cd →
      getNode cd "payment_terms" = some cnode →
      cnode.value = some cv →
      getValue st.invoice_data "payment_terms" = some iv →
      iv.truthy = true → cv.truthy = true →
      f iv.pyStr cv.pyStr = .ok raw →
      json_loads (stripFences raw) = none →
      compare_terms (some f) st = .ok []) ∧
    (∀ (f : LLM) (st : ComparisonState) (cd : FieldMap) (cnode : EvidenceNode)
        (iv cv : Scalar) (e : PyError),
      truthyOptInt st.contract_id = true →
      st.contract_data = some cd →
      getNode cd "payment_terms" = some cnode →
      cnode.value = some cv →
      getValue st.invoice_data "payment_terms" = some iv →
      iv.truthy = true → cv.truthy = true →
      f iv.pyStr cv.pyStr = .error e →
      compare_terms (some f) st = .error e) ∧
    (∀ (store : List Document) (f : LLM) (iid : Int) (doc : Document)
        (er : ExtractionResult) (mr : MatchResult) (cd : FieldMap)
        (cnode : EvidenceNode) (iv cv : Scalar) (raw : String),
      findDocById store iid = some doc →
      doc.extraction_result = some er →
      retrieve_contract store (er.data.getD []) = .ok mr →
      truthyOptInt mr.contract_id = true →
      mr.contract_data = some cd →
      getNode cd "payment_terms" = some cnode →
      cnode.value = some cv →
      getValue (er.data.getD []) "payment_terms" = some iv →
      iv.truthy = true → cv.truthy = true →
      f iv.pyStr cv.pyStr = .ok raw →
      json_loads (stripFences raw) = none →
      run store (some f) iid = .ok []) := by
  have key : ∀ (f : LLM) (st : ComparisonState) (cd : FieldMap) (cnode : EvidenceNode)
      (iv cv : Scalar) (raw : String),
      truthyOptInt st.contract_id = true →
      st.contract_data = some cd →
      getNode cd "payment_terms" = some cnode →
      cnode.value = some cv →
      getValue st.invoice_data "payment_terms" = some iv →
      iv.truthy = true → cv.truthy = true →
      f iv.pyStr cv.pyStr = .ok raw →
      json_loads (stripFences raw) = none →
      compare_terms (some f) st = .ok [] := by
    intro f st cd cnode iv cv raw hid hcd hc hcv hiv hivt hcvt hraw hparse
    rw [compare_terms_matched (some f) st cd hid hcd,
      compareMatched_llm f st.invoice_data cd cnode iv cv hc hcv hiv hivt hcvt]
    simp [llmCompare, hraw, hparse]
  refine ⟨key, ?_, ?_⟩
  · intro f st cd cnode iv cv e hid hcd hc hcv hiv hivt hcvt herr
    rw [compare_terms_matched (some f) st cd hid hcd,
      compareMatched_llm f st.invoice_data cd cnode iv cv hc hcv hiv hivt hcvt]
    simp [llmCompare, herr]
  · intro store f iid doc er mr cd cnode iv cv raw hfind hext hret hid hcd hc hcv hiv
      hivt hcvt hraw hparse
    have hrun : run store (some f) iid = compare_terms (some f)
        { invoice_id := iid, invoice_data := er.data.getD [],
          contract_id := mr.contract_id, contract_data := mr.contract_data,
          findings := [] } := by
      simp [run, hfind, hext, hret]
    rw [hrun]
    exact key f _ cd cnode iv cv raw hid hcd hc hcv hiv hivt hcvt hraw hparse

/-- Witness for the amended C2 at concrete inputs: an unparseable response
yields zero findings at the Comparator and a normally completed run, and an
invocation failure surfaces as the Comparator's error. -/
theorem llm_parse_failure_fail_open_witness :
    compare_terms (some (fun _ _ => .ok "I cannot answer that")) stLLM = .ok [] ∧
    compare_terms (some (fun _ _ => .error (.runtimeError "timeout"))) stLLM =
      .error (.runtimeError "timeout") ∧
    run acmeStore (some (fun _ _ => .ok "I cannot answer that")) 1 = .ok [] := by
  refine ⟨?_, ?_, ?_⟩
  · exact llm_parse_failure_fail_open.1 (fun _ _ => .ok "I cannot answer that") stLLM
      [("payment_terms", { value := some (.str "Net 45") })] { value := some (.str "Net 45") }
      (.str "Net 30") (.str "Net 45") "I cannot answer that"
      rfl rfl rfl rfl rfl (by decide) (by decide) rfl rfl
  · exact llm_parse_failure_fail_open.2.1 (fun _ _ => .error (.runtimeError "timeout")) stLLM
      [("payment_terms", { value := some (.str "Net 45") })] { value := some (.str "Net 45") }
      (.str "Net 30") (.str "Net 45") (.runtimeError "timeout")
      rfl rfl rfl rfl rfl (by decide) (by decide) rfl
  · exact llm_parse_failure_fail_open.2.2 acmeStore (fun _ _ => .ok "I cannot answer that") 1
      acmeInvoiceDoc { doc_type := some "invoice", data := some acmeInvoiceData }
      { contract_id := some 2, contract_data := some acmeContractData }
      acmeContractData { value := some (.str "Net 45"), meta := [("page", "3")] }
      (.str "Net 30") (.str "Net 45") "I cannot answer that"
      rfl rfl rfl rfl rfl rfl rfl rfl (by decide) (by decide) rfl rfl

/-- Every finding the matched-contract half emits is a HIGH TERM_MISMATCH
carrying both sides' payment-terms evidence objects. -/
theorem compareMatched_all_mismatch_evidence (llm : Option LLM) (invoice_data cd : FieldMap)
    (fs : List Finding) (h : compareMatched llm invoice_data cd = .ok fs) :
    ∀ f ∈ fs, f.finding_type = .TERM_MISMATCH ∧ f.severity = .HIGH ∧
      f.evidence = some { invoice_evidence := getNode invoice_data "payment_terms"
                          contract_evidence := (getNode cd "payment_terms").getD emptyNode } := by
  intro f hf
  rcases llm with _ | fc <;>
    simp only [compareMatched, llmCompare] at h <;>
    repeat' split at h
  all_goals
    first
    | (simp only [Except.ok.injEq] at h; subst h;
       first
       | (simp only [List.mem_singleton] at hf; subst hf; exact ⟨rfl, rfl, rfl⟩)
       | simp at hf)
    | exact Except.noConfusion h

/-- C8: the findings `run` returns are exactly those the Comparator stage
emitted, in emission order (the Matcher emits none and the orchestrator never
reorders), and every HIGH TERM_MISMATCH finding carries verbatim both the
invoice's and the contract's payment-terms evidence objects. -/
theorem findings_order_and_evidence :
    (∀ (store : List Document) (llm : Option LLM) (iid : Int) (doc : Document)
        (er : ExtractionResult) (mr : MatchResult),
      findDocById store iid = some doc →
      doc.extraction_result = some er →
      retrieve_contract store (er.data.getD []) = .ok mr →
      run store llm iid = compare_terms llm
        { invoice_id := iid, invoice_data := er.data.getD [],
          contract_id := mr.contract_id, contract_data := mr.contract_data,
          findings := [] }) ∧
    (∀ (llm : Option LLM) (st : ComparisonState) (fs : List Finding),
      compare_terms llm st = .ok fs →
      ∀ f ∈ fs, f.finding_type = .TERM_MISMATCH →
        f.severity = .HIGH ∧ ∃ cd, st.contract_data = some cd ∧
          f.evidence = some { invoice_evidence := getNode st.invoice_data "payment_terms"
                              contract_evidence := (getNode cd "payment_terms").getD emptyNode }) := by
  constructor
  · intro store llm iid doc er mr h1 h2 h3
    simp [run, h1, h2, h3]
  · intro llm st fs h f hf hft
    unfold compare_terms at h
    split at h
    · simp only [Except.ok.injEq] at h
      subst h
      simp only [List.mem_singleton] at hf
      subst hf
      cases hft
    · rename_i hid
      cases hcd : st.contract_data with
      | none => rw [hcd] at h; cases h
      | some cd =>
        rw [hcd] at h
        have hall := compareMatched_all_mismatch_evidence llm st.invoice_data cd fs h f hf
        exact ⟨hall.2.1, cd, rfl, hall.2.2⟩

/-- Witness for C8 at concrete inputs: on the section 8 scenario `run` equals
the Comparator applied to the matched state, and the single TERM_MISMATCH
finding of the fallback run carries both evidence objects. -/
theorem findings_order_and_evidence_witness :
    run acmeStore none 1 = compare_terms none
      { invoice_id := 1, invoice_data := acmeInvoiceData, contract_id := some 2,
        contract_data := some acmeContractData, findings := [] } ∧
    (∀ f ∈ [{ finding_type := .TERM_MISMATCH
              severity := .HIGH
              description := "Invoice terms 'Net 30' do not match Contract 'Net 45'. (Mock Comparison)"
              evidence := some { invoice_evidence :=
                                   some { value := some (.str "Net 30"), meta := [("page", "1")] }
                                 contract_evidence :=
                                   { value := some (.str "Net 45"), meta := [("page", "3")] } } :
              Finding }],
      f.finding_type = .TERM_MISMATCH →
        f.severity = .HIGH ∧ ∃ cd, some acmeContractData = some cd ∧
          f.evidence = some { invoice_evidence := getNode acmeInvoiceData "payment_terms"
                              contract_evidence := (getNode cd "payment_terms").getD emptyNode }) := by
  constructor
  · have h := findings_order_and_evidence.1 acmeStore none 1 acmeInvoiceDoc
      { doc_type := some "invoice", data := some acmeInvoiceData }
      { contract_id := some 2, contract_data := some acmeContractData } rfl rfl rfl
    exact h
  · exact findings_order_and_evidence.2 none
      { invoice_id := 1, invoice_data := acmeInvoiceData, contract_id := some 2,
        contract_data := some acmeContractData, findings := [] } _ rfl

/-- C9: the Comparator dereferences `contract_data` with no `None` guard once
`contract_id` is truthy, so it raises `AttributeError` whenever the state
carries a matched id with a `None` contract mapping; and the Matcher binds
`contract_data` to whatever the selected document's `data` slot holds
(`extraction_result.get("data")`), which is `None` exactly when the selected
document's extraction result lacks a `data` key — so the matched-contract
path is total only when every matched contract's extraction result carries a
`data` mapping. -/
theorem contract_data_none_raises :
    (∀ (llm : Option LLM) (st : ComparisonState),
      truthyOptInt st.contract_id = true → st.contract_data = none →
      compare_terms llm st = .error .attributeError) ∧
    (∀ (store : List Document) (inv : FieldMap) (v : Scalar) (doc : Document)
        (er : ExtractionResult),
      getValue inv "vendor_name" = some v → truthyOpt (some v) = true →
      scanContracts v store = .ok (some doc) → doc.extraction_result = some er →
      retrieve_contract store inv =
        .ok { contract_id := some doc.id, contract_data := er.data }) := by
  constructor
  · intro llm st hid hcd
    simp [compare_terms, hid, hcd]
  · intro store inv v doc er hv ht hscan hext
    simp [retrieve_contract, hv, ht, hscan, hext]

/-- Witness for C9 at concrete inputs: a matched state with a `None` contract
mapping makes the Comparator raise, and on the scenario store the Matcher
binds exactly the selected document's `data` slot. -/
theorem contract_data_none_raises_witness :
    compare_terms none
        { invoice_id := 1, invoice_data := acmeInvoiceData, contract_id := some 2,
          contract_data := none, findings := [] } = .error .attributeError ∧
    retrieve_contract acmeStore acmeInvoiceData =
      .ok { contract_id := some acmeContractDoc.id,
            contract_data := some acmeContractData } := by
  constructor
  · exact contract_data_none_raises.1 none _ rfl rfl
  · exact contract_data_none_raises.2 acmeStore acmeInvoiceData (.str "Acme Corp")
      acmeContractDoc { doc_type := some "contract", data := some acmeContractData }
      rfl (by decide) rfl rfl

end ThrillAI
